import Mathlib

/-!
Shallow embedding of the probing core of `go_services_dashboard`:
the Check Engine (`internal/checker.CheckService`), the Test Engine
(`internal/checker.TestActiveLink`), the prober helpers
(`GetInternalHosts`, `GetInternalPorts`, `GetPathFromURL`,
`TryInternalRequest`), the Monitor cycle with retry and circuit breaker
(`monitor.CheckService`, `monitor.TestActiveLink`, `NewMonitor`), and the
manual-test HTTP handler (`api.HandleManualTest`).

The network is modelled as a deterministic fetch oracle
`String → HttpResult` carried by an `HttpClient` together with its
configured timeout.  Each embedded function additionally returns the
trace of outbound requests it issued (URL and the timeout of the client
used), so that claims about "no outbound HTTP request" and about
timeouts become statements about that trace.  Go `time.Time` values are
modelled as `Nat` seconds, with `0` standing for the zero `time.Time`
(`IsZero`).  Wall-clock durations measured with `time.Since` are
irrelevant to every claim and are threaded through as an explicit
`elapsedMs` input.
-/

/-- Outcome of one HTTP GET: a transport error with its message, or a
response.  The response abstracts exactly the observations the Go code
makes of an `*http.Response`: status code, status line, `Content-Type`
header, whether the body decodes as a JSON object, and the `status`,
`version`, `result`, `tool` payload fields the code inspects. -/
structure HttpResponse where
  statusCode : Nat
  status : String := ""
  contentType : String := ""
  bodyIsJson : Bool := false
  jsonStatus : String := ""
  jsonVersion : String := ""
  jsonHasResult : Bool := false
  jsonHasTool : Bool := false
deriving Repr, DecidableEq

/-- Result of `client.Get`: `connErr` models a non-nil transport error. -/
inductive HttpResult where
  | connErr (msg : String)
  | response (r : HttpResponse)
deriving Repr, DecidableEq

/-- Go `*http.Client`: the configured timeout plus the network, modelled
as a deterministic fetch oracle. -/
structure HttpClient where
  timeoutSeconds : Nat
  fetch : String → HttpResult

/-- One outbound request as recorded in a trace: the URL requested and
the timeout of the client that issued it. -/
structure ReqLog where
  url : String
  timeoutSeconds : Nat
deriving Repr, DecidableEq

/-- The mutable service record (`models.Service` in `cmd/server/main.go`,
second section).  Go `time.Time` fields are `Nat` seconds with `0` as the
zero value; `ResponseMs` is `int64`. -/
structure Service where
  id : String := ""
  name : String := ""
  category : String := ""
  port : Int := 0
  dockerName : String := ""
  exampleURL : String := ""
  healthURL : String := ""
  status : String := ""
  healthStatus : String := ""
  exampleStatus : String := ""
  lastError : String := ""
  testStatus : String := ""
  testError : String := ""
  version : String := ""
  lastChecked : Nat := 0
  responseMs : Int := 0
  healthHistory : List String := []
  consecutiveFailures : Nat := 0
  circuitOpenUntil : Nat := 0
deriving Repr, DecidableEq

/-- Occurrence of `sub` in `s`, on character lists. -/
def containsSub (sub : List Char) : List Char → Bool
  | [] => sub.isPrefixOf []
  | a :: t => sub.isPrefixOf (a :: t) || containsSub sub t

/-- Go `strings.Contains s sub`. -/
def strContains (s sub : String) : Bool :=
  containsSub sub.toList s.toList

namespace checker

/-- GetInternalHosts (tester.go): `localhost`, then `DockerName` if
non-empty, then `ID-app-1` if `ID` is non-empty and differs from
`DockerName`; duplicates and empty strings removed preserving order. -/
def getInternalHosts (svc : Service) : List String :=
  let names :=
    ["localhost"]
      ++ (if svc.dockerName != "" then [svc.dockerName] else [])
      ++ (if svc.id != "" && svc.id != svc.dockerName then [svc.id ++ "-app-1"] else [])
  names.foldl (fun acc n => if acc.contains n || n == "" then acc else acc ++ [n]) []

/-- GetInternalPorts (tester.go): the record port if positive, then 8080
if different. -/
def getInternalPorts (svc : Service) : List Int :=
  (if svc.port > 0 then [svc.port] else [])
    ++ (if svc.port != 8080 then [(8080 : Int)] else [])

/-- Scan for the first occurrence of the `://` scheme separator
(`strings.Index(rawURL, "://")` in the Go fallback) and return
everything after it. -/
def dropThroughSchemeSep : List Char → Option (List Char)
  | [] => none
  | a :: t =>
    if [':', '/', '/'].isPrefixOf (a :: t) then some (t.drop 2)
    else dropThroughSchemeSep t

/-- GetPathFromURL (tester.go): the path plus query of the URL.  The Go
code first tries `url.Parse` and returns `u.RequestURI()`; on a parse
error it strips an optional `scheme://` and returns everything from the
first `/`, or `/` when there is none.  For the absolute `http(s)` URLs
this program works with, both branches agree, so the embedding implements
the strip-and-scan algorithm. -/
def getPathFromURL (raw : String) : String :=
  let rest :=
    match dropThroughSchemeSep raw.toList with
    | some r => r
    | none => raw.toList
  let path := rest.dropWhile (fun ch => ch != '/')
  if path.isEmpty then "/" else String.mk path

/-- Target URL for one internal candidate, as formatted by the Go
`fmt.Sprintf` calls. -/
def mkUrl (host : String) (port : Int) (path : String) : String :=
  "http://" ++ host ++ ":" ++ toString port ++ path

/-- Result of `TryInternalRequest`: the first response with status in
[200, 500) together with its target URL, or the error of the last failed
attempt; plus the trace of requests issued. -/
structure TryOut where
  result : Option (HttpResponse × String)
  lastErr : String
  trace : List ReqLog
deriving Repr

/-- Inner loop of `TryInternalRequest` over the remaining host-port
candidates, threading the message of the last failed attempt. -/
def tryCandidates (c : HttpClient) (path : String) :
    List (String × Int) → String → TryOut
  | [], lastErr => { result := none, lastErr := lastErr, trace := [] }
  | (host, port) :: rest, lastErr =>
    let url := mkUrl host port path
    match c.fetch url with
    | .connErr m =>
      let o := tryCandidates c path rest m
      { o with trace := ⟨url, c.timeoutSeconds⟩ :: o.trace }
    | .response r =>
      if 200 ≤ r.statusCode ∧ r.statusCode < 500 then
        { result := some (r, url), lastErr := lastErr,
          trace := [⟨url, c.timeoutSeconds⟩] }
      else
        let o := tryCandidates c path rest ("HTTP " ++ toString r.statusCode)
        { o with trace := ⟨url, c.timeoutSeconds⟩ :: o.trace }

/-- TryInternalRequest (tester.go): try every host of `getInternalHosts`
with every port of `getInternalPorts`, in order, returning the first
response with status in [200, 500). -/
def tryInternalRequest (c : HttpClient) (svc : Service) (path : String) : TryOut :=
  let candidates :=
    (getInternalHosts svc).flatMap fun h => (getInternalPorts svc).map fun p => (h, p)
  tryCandidates c path candidates ""

/-- Hostname of a URL of the form `http://host:port/...`, modelling the
`u.Hostname()` call `CheckService` applies to the URL returned by
`tryInternalRequest` (always of that form). -/
def hostnameOf (u : String) : String :=
  String.mk ((u.toList.drop 7).takeWhile (fun ch => ch != ':'))

end checker

namespace checker

/-- Result record returned by the Check Engine
(`checker.CheckServiceResult`). -/
structure CheckServiceResult where
  status : String
  healthStatus : String
  exampleStatus : String
  lastError : String
  version : String
  responseMs : Int
deriving Repr, DecidableEq

/-- Output of the liveness step (STEP 1 of `CheckService`): the liveness
signal, the parsed version, the accumulated diagnostic, the service
record with its possibly refined `DockerName`, and the request trace. -/
structure HealthStepOut where
  healthOK : Bool
  version : String
  healthError : String
  svc : Service
  trace : List ReqLog
deriving Repr

/-- Fallback of STEP 1 to the public `HealthURL` when the internal
liveness probe did not yield a 200.  `healthError` is the diagnostic
accumulated so far; public diagnostics are appended after a ` | `
separator.  A 200 public response whose JSON carries an unexpected
`status` leaves both the signal and the diagnostic unchanged, exactly as
in the source. -/
def publicFallback (c : HttpClient) (svc : Service) (healthError : String)
    (tr : List ReqLog) : HealthStepOut :=
  if svc.healthURL != "" then
    let tr := tr ++ [⟨svc.healthURL, c.timeoutSeconds⟩]
    match c.fetch svc.healthURL with
    | .response resp =>
      if resp.statusCode == 200 then
        if resp.bodyIsJson then
          if resp.jsonStatus == "healthy" || resp.jsonStatus == "ok" then
            { healthOK := true, version := resp.jsonVersion,
              healthError := healthError, svc := svc, trace := tr }
          else
            { healthOK := false, version := "", healthError := healthError,
              svc := svc, trace := tr }
        else
          { healthOK := true, version := "", healthError := healthError,
            svc := svc, trace := tr }
      else
        { healthOK := false, version := "",
          healthError := healthError ++ " | Public health: HTTP " ++ toString resp.statusCode,
          svc := svc, trace := tr }
    | .connErr m =>
      { healthOK := false, version := "",
        healthError := healthError ++ " | Public health: " ++ m,
        svc := svc, trace := tr }
  else
    { healthOK := false, version := "", healthError := healthError,
      svc := svc, trace := tr }

/-- STEP 1 of `CheckService`: probe `/health` through the internal
candidates; on a 200, accept unless the body is JSON with an unexpected
`status` field, refine `DockerName` to the host that answered, and take
the version from the body; otherwise fall back to the public
`HealthURL`. -/
def checkHealthStep (c : HttpClient) (svc : Service) : HealthStepOut :=
  let t := tryInternalRequest c svc "/health"
  match t.result with
  | some (resp, resolveURL) =>
    if resp.statusCode == 200 then
      let svc1 := { svc with dockerName := hostnameOf resolveURL }
      if resp.bodyIsJson then
        if resp.jsonStatus == "healthy" || resp.jsonStatus == "ok" then
          { healthOK := true, version := resp.jsonVersion, healthError := "",
            svc := svc1, trace := t.trace }
        else
          { healthOK := false, version := "",
            healthError := "Internal health status: " ++ resp.jsonStatus,
            svc := svc1, trace := t.trace }
      else
        { healthOK := true, version := "", healthError := "",
          svc := svc1, trace := t.trace }
    else
      publicFallback c svc ("Internal health: HTTP " ++ toString resp.statusCode) t.trace
  | none =>
    publicFallback c svc ("Internal health: " ++ t.lastErr) t.trace

/-- Output of the functional-probe step (STEP 2 of `CheckService`).
`exampleStatusCode` is the status code of the public attempt, `0` when
the public attempt hit a transport error or no `ExampleURL` is set. -/
structure ExampleStepOut where
  exampleOK : Bool
  exampleStatusCode : Nat
  exampleError : String
  trace : List ReqLog
deriving Repr

/-- Internal diagnosis branch of STEP 2, run when the public attempt on
`ExampleURL` did not succeed: retry the extracted path through the
internal candidates; a 2xx/3xx promotes the signal back to ok. -/
def internalDiagnosis (c : HttpClient) (svc : Service) (exampleError : String)
    (code : Nat) (tr : List ReqLog) : ExampleStepOut :=
  let path := getPathFromURL svc.exampleURL
  let t := tryInternalRequest c svc path
  match t.result with
  | some (resp, _) =>
    if 200 ≤ resp.statusCode ∧ resp.statusCode < 400 then
      { exampleOK := true, exampleStatusCode := code,
        exampleError := exampleError ++ " | Internal OK (HTTP " ++ toString resp.statusCode ++ ")",
        trace := tr ++ t.trace }
    else
      { exampleOK := false, exampleStatusCode := code,
        exampleError := exampleError ++ " | Internal also failed (HTTP " ++ toString resp.statusCode ++ ")",
        trace := tr ++ t.trace }
  | none =>
    { exampleOK := false, exampleStatusCode := code,
      exampleError := exampleError ++ " | Internal unreachable",
      trace := tr ++ t.trace }

/-- STEP 2 of `CheckService`: GET the public `ExampleURL`; a 2xx/3xx
non-HTML response is ok, an HTML response or any failure falls through to
the internal diagnosis.  Absent `ExampleURL` the signal is vacuously ok
with a noted diagnostic. -/
def checkExampleStep (c : HttpClient) (svc : Service) : ExampleStepOut :=
  if svc.exampleURL != "" then
    let log0 : List ReqLog := [⟨svc.exampleURL, c.timeoutSeconds⟩]
    match c.fetch svc.exampleURL with
    | .response resp =>
      if 200 ≤ resp.statusCode ∧ resp.statusCode < 400 then
        if strContains resp.contentType "text/html" then
          internalDiagnosis c svc
            ("Public: Unexpected HTML (HTTP " ++ toString resp.statusCode ++ ")")
            resp.statusCode log0
        else
          { exampleOK := true, exampleStatusCode := resp.statusCode,
            exampleError := "", trace := log0 }
      else
        internalDiagnosis c svc
          ("Public HTTP " ++ toString resp.statusCode ++ ": " ++ resp.status)
          resp.statusCode log0
    | .connErr m =>
      internalDiagnosis c svc ("Public Connection: " ++ m) 0 log0
  else
    { exampleOK := true, exampleStatusCode := 0,
      exampleError := "No ExampleURL configured", trace := [] }

/-- STEP 3 of `CheckService`: the two-signal verdict.  Returns the
status string and the `last_error` diagnostic. -/
def computeFinalStatus (healthOK exampleOK : Bool) (exampleStatusCode : Nat)
    (healthError exampleError : String) : String × String :=
  if healthOK && exampleOK then ("healthy", "")
  else if !healthOK then ("unhealthy", healthError)
  else if 500 ≤ exampleStatusCode ∨ exampleStatusCode == 0 then ("unhealthy", exampleError)
  else ("degraded", exampleError)

/-- Full output of one Check Engine invocation: the result record, the
internal signals it was computed from, the service record with its
possibly refined `DockerName`, and the request trace. -/
structure CheckOut where
  result : CheckServiceResult
  healthOK : Bool
  exampleOK : Bool
  exampleStatusCode : Nat
  healthError : String
  exampleError : String
  svc : Service
  trace : List ReqLog
deriving Repr

/-- CheckService (tester.go): liveness step, functional step, verdict.
`elapsedMs` stands for the wall time `time.Since(start)` the Go code
measures. -/
def checkService (c : HttpClient) (svc : Service) (elapsedMs : Int) : CheckOut :=
  let h := checkHealthStep c svc
  let e := checkExampleStep c h.svc
  let se := computeFinalStatus h.healthOK e.exampleOK e.exampleStatusCode
    h.healthError e.exampleError
  { result := { status := se.1,
                healthStatus := if h.healthOK then "ok" else "fail",
                exampleStatus := if e.exampleOK then "ok" else "fail",
                lastError := se.2, version := h.version, responseMs := elapsedMs },
    healthOK := h.healthOK, exampleOK := e.exampleOK,
    exampleStatusCode := e.exampleStatusCode,
    healthError := h.healthError, exampleError := e.exampleError,
    svc := h.svc, trace := h.trace ++ e.trace }

end checker

namespace checker

/-- Result of the Test Engine (`checker.TestServiceResult`). -/
structure TestServiceResult where
  status : String
  error : String
deriving Repr, DecidableEq

/-- TestActiveLink (tester.go): one-shot functional probe.  With an
`ExampleURL`, probe its extracted path through the internal candidates
and never fall back to `/health`; a 2xx/3xx response passes, with a
JSON-aware diagnostic.  Without an `ExampleURL`, probe `/health`
instead.  `elapsedMs` stands for the measured `time.Since(start)`. -/
def testActiveLink (c : HttpClient) (svc : Service) (elapsedMs : Int) :
    TestServiceResult × List ReqLog :=
  if svc.exampleURL != "" then
    let path := getPathFromURL svc.exampleURL
    let t := tryInternalRequest c svc path
    match t.result with
    | some (resp, _) =>
      if 200 ≤ resp.statusCode ∧ resp.statusCode < 400 then
        if resp.bodyIsJson && (resp.jsonHasResult || resp.jsonHasTool) then
          ({ status := "passing", error := "OK in " ++ toString elapsedMs ++ "ms" }, t.trace)
        else
          ({ status := "passing",
             error := "HTTP " ++ toString resp.statusCode ++ " in " ++ toString elapsedMs ++ "ms" },
           t.trace)
      else
        ({ status := "failed",
           error := "HTTP " ++ toString resp.statusCode ++ ": " ++ resp.status }, t.trace)
    | none =>
      ({ status := "failed", error := "Connection failed: " ++ t.lastErr }, t.trace)
  else
    let t := tryInternalRequest c svc "/health"
    match t.result with
    | some (resp, _) =>
      if 200 ≤ resp.statusCode ∧ resp.statusCode < 400 then
        ({ status := "passing", error := "Health OK" }, t.trace)
      else
        ({ status := "failed",
           error := "No ExampleURL configured, internal health check passed locally but failed validation" },
         t.trace)
    | none =>
      ({ status := "failed",
         error := "No ExampleURL configured, internal health check passed locally but failed validation" },
       t.trace)

end checker

namespace monitor

/-- Real-time event broadcast to every subscriber
(`monitor.ServiceUpdate`).  Fields absent from a broadcast are empty. -/
structure ServiceUpdate where
  serviceID : String
  status : String
  testStatus : String := ""
  testError : String := ""
  lastError : String := ""
  responseMs : Int
deriving Repr, DecidableEq

/-- Two-digit decimal field of the `15:04:05` time format. -/
def pad2 (n : Nat) : String :=
  if n < 10 then "0" ++ toString n else toString n

/-- The `HH:MM:SS` rendering `t.Format("15:04:05")` of a timestamp
modelled as seconds, used in the circuit-open cooldown diagnostic. -/
def formatHMS (t : Nat) : String :=
  pad2 (t / 3600 % 24) ++ ":" ++ pad2 (t % 3600 / 60) ++ ":" ++ pad2 (t % 60)

/-- The cooldown diagnostic written by a skipped cycle. -/
def circuitOpenMsg (until_ : Nat) : String :=
  "Circuit Open (cooling down until " ++ formatHMS until_ ++ ")"

/-- The diagnostic written when the breaker trips. -/
def circuitTrippedMsg : String := "Circuit Breaker Tripped (5 failing checks)"

/-- Retry loop of `monitor.CheckService`: invoke the Check Engine up to
three times, stopping after the first healthy verdict, threading the
service record (whose `DockerName` each attempt may refine) and
accumulating the request trace.  The 1s/2s backoff sleeps do not affect
any modelled observable. -/
def retryCheck (c : HttpClient) (svc : Service) (elapsedMs : Int) :
    checker.CheckOut × List ReqLog :=
  let a1 := checker.checkService c svc elapsedMs
  if a1.result.status == "healthy" then (a1, a1.trace)
  else
    let a2 := checker.checkService c a1.svc elapsedMs
    if a2.result.status == "healthy" then (a2, a1.trace ++ a2.trace)
    else
      let a3 := checker.checkService c a2.svc elapsedMs
      (a3, a1.trace ++ a2.trace ++ a3.trace)

/-- Write-back, circuit-breaker update and history append of
`monitor.CheckService` (the block under the registry write lock after
the retry loop), applied to the record the retry loop returned. -/
def applyResult (svc : Service) (r : checker.CheckServiceResult) (now : Nat) : Service :=
  let s1 : Service :=
    { svc with lastChecked := now, responseMs := r.responseMs, status := r.status,
               healthStatus := r.healthStatus, exampleStatus := r.exampleStatus,
               lastError := r.lastError,
               version := if r.version != "" then r.version else svc.version }
  let s2 : Service :=
    if r.status != "healthy" then
      let cf := s1.consecutiveFailures + 1
      if cf ≥ 5 then
        { s1 with consecutiveFailures := cf, circuitOpenUntil := now + 5 * 60,
                  lastError := circuitTrippedMsg }
      else
        { s1 with consecutiveFailures := cf }
    else
      { s1 with consecutiveFailures := 0, circuitOpenUntil := 0 }
  let hh := s2.healthHistory ++ [r.status]
  { s2 with healthHistory := if hh.length > 5 then hh.tail else hh }

/-- Observable outcome of one per-service cycle: the updated record, the
broadcasts issued, the outbound requests issued, and the Check Engine
verdict when a probe ran (`none` when the circuit-open gate skipped it). -/
structure CycleOut where
  svc : Service
  updates : List ServiceUpdate
  trace : List ReqLog
  probed : Option checker.CheckServiceResult
deriving Repr

/-- Monitor.CheckService (the circuit-breaker monitor in
`src/unnamed/part_002`): when the circuit is open
(`CircuitOpenUntil` non-zero and `now` before it) set the record to
unhealthy with the cooldown diagnostic and return without probing or
broadcasting; otherwise run the retry loop, write back, update the
breaker, append history and broadcast one `ServiceUpdate`. -/
def checkServiceCycle (c : HttpClient) (svc : Service) (now : Nat)
    (elapsedMs : Int) : CycleOut :=
  if svc.circuitOpenUntil ≠ 0 ∧ now < svc.circuitOpenUntil then
    { svc := { svc with status := "unhealthy",
                        lastError := circuitOpenMsg svc.circuitOpenUntil },
      updates := [], trace := [], probed := none }
  else
    let a := (retryCheck c svc elapsedMs).1
    let s := applyResult a.svc a.result now
    { svc := s,
      updates := [{ serviceID := s.id, status := s.status,
                    lastError := s.lastError, responseMs := s.responseMs }],
      trace := (retryCheck c svc elapsedMs).2, probed := some a.result }

/-- Observable outcome of `Monitor.TestActiveLink`: the returned triple
(status, message, error), the updated record when the id was found, the
broadcasts and the request trace. -/
structure TestOut where
  status : String
  errMsg : String
  err : Option String
  svc : Option Service
  updates : List ServiceUpdate
  trace : List ReqLog
deriving Repr

/-- Monitor.TestActiveLink (the circuit-breaker monitor in
`src/unnamed/part_002`): look the id up in the registry; when absent,
return empty status and message with a nil error; otherwise run the Test
Engine with the monitor's client, write `test_status` and `test_error`
back, and broadcast an update carrying both the periodic status and the
test fields. -/
def testActiveLinkM (c : HttpClient) (reg : List Service) (id : String)
    (elapsedMs : Int) : TestOut :=
  match reg.find? (fun s => s.id == id) with
  | none =>
    { status := "", errMsg := "", err := none, svc := none, updates := [], trace := [] }
  | some svc =>
    let r := (checker.testActiveLink c svc elapsedMs).1
    let svc1 := { svc with testStatus := r.status, testError := r.error }
    { status := r.status, errMsg := r.error, err := none, svc := some svc1,
      updates := [{ serviceID := svc.id, status := svc.status,
                    testStatus := r.status, testError := r.error,
                    responseMs := svc.responseMs }],
      trace := (checker.testActiveLink c svc elapsedMs).2 }

/-- The monitor as built by `NewMonitor`: the registry, a shared HTTP
client with a 5-second timeout, and the 30-second tick interval.  The
network oracle is a parameter. -/
structure Monitor where
  registry : List Service
  client : HttpClient
  intervalSeconds : Nat

/-- NewMonitor (`src/unnamed/part_002`): client timeout 5 seconds,
interval 30 seconds. -/
def newMonitor (fetch : String → HttpResult) (reg : List Service) : Monitor :=
  { registry := reg, client := { timeoutSeconds := 5, fetch := fetch },
    intervalSeconds := 30 }

end monitor

namespace api

/-- The HTTP reply an API handler writes: a status code and, for JSON
replies, the encoded fields. -/
structure Reply where
  code : Nat
  fields : List (String × String)
deriving Repr, DecidableEq

/-- Handler.HandleManualTest (`internal/api/handlers.go`): POST only;
400 on an empty id; run `Monitor.TestActiveLink`; 404 when it returns a
non-nil error, otherwise a 200 JSON body with the id and the test
outcome. -/
def handleManualTest (c : HttpClient) (reg : List Service) (method : String)
    (id : String) (elapsedMs : Int) : Reply :=
  if method != "POST" then { code := 405, fields := [("error", "Method not allowed")] }
  else if id == "" then { code := 400, fields := [("error", "Missing service ID")] }
  else
    let t := monitor.testActiveLinkM c reg id elapsedMs
    match t.err with
    | some e => { code := 404, fields := [("error", e)] }
    | none =>
      { code := 200,
        fields := [("id", id), ("test_status", t.status), ("test_error", t.errMsg)] }

end api

namespace monitor

/-- Input of one per-service cycle: the client (with its network oracle),
the wall-clock time at which the cycle runs, and the measured probe
duration. -/
structure CycleIn where
  client : HttpClient
  now : Nat
  elapsedMs : Int

/-- Run a sequence of per-service cycles, returning the final record and
the list of verdicts the probed cycles recorded (skipped cycles record
none). -/
def runCycles : Service → List CycleIn → Service × List String
  | svc, [] => (svc, [])
  | svc, i :: rest =>
    let o := checkServiceCycle i.client svc i.now i.elapsedMs
    ((runCycles o.svc rest).1,
     (match o.probed with | some r => [r.status] | none => [])
       ++ (runCycles o.svc rest).2)

/-- Number of back-to-back non-healthy verdicts at the end of a verdict
list. -/
def trailingNonHealthy (vs : List String) : Nat :=
  (vs.reverse.takeWhile (fun v => v != "healthy")).length

/-- Effect of a list of recorded verdicts on the consecutive-failure
counter: a healthy verdict resets it, any other increments it. -/
def cfStep : Nat → List String → Nat
  | cf, [] => cf
  | cf, v :: rest => cfStep (if v = "healthy" then 0 else cf + 1) rest

end monitor

/-! Concrete fixtures used by witnesses and counterexamples: one service
record and a handful of network oracles. -/

/-- A service with both probe URLs configured. -/
def svcA : Service :=
  { id := "alpha", name := "Alpha", category := "domains", port := 9000,
    exampleURL := "https://ex.example/api/run?q=1",
    healthURL := "https://h.example/health" }

/-- Network in which alpha is fully up: internal liveness answers 200
with a good JSON status and the public example returns JSON. -/
def fetchOkA : String → HttpResult := fun u =>
  if u = "http://localhost:9000/health" then
    .response { statusCode := 200, status := "200 OK", bodyIsJson := true,
                jsonStatus := "ok", jsonVersion := "1.2.3" }
  else if u = "https://ex.example/api/run?q=1" then
    .response { statusCode := 200, status := "200 OK",
                contentType := "application/json", bodyIsJson := true,
                jsonHasResult := true }
  else .connErr "dial tcp: connection refused"

/-- Network in which every request fails at the transport layer. -/
def fetchDown : String → HttpResult := fun _ =>
  .connErr "dial tcp: connection refused"

/-- Network in which liveness is fine but the example endpoint answers
404 publicly and is unreachable internally. -/
def fetch404A : String → HttpResult := fun u =>
  if u = "http://localhost:9000/health" then
    .response { statusCode := 200, status := "200 OK", bodyIsJson := true,
                jsonStatus := "ok", jsonVersion := "1.2.3" }
  else if u = "https://ex.example/api/run?q=1" then
    .response { statusCode := 404, status := "404 Not Found",
                contentType := "application/json" }
  else .connErr "dial tcp: connection refused"

/-- Network in which liveness is fine but the public example returns an
HTML page with status 200 (reverse-proxy decoy) and the internal example
is unreachable. -/
def fetchHtmlA : String → HttpResult := fun u =>
  if u = "http://localhost:9000/health" then
    .response { statusCode := 200, status := "200 OK", bodyIsJson := true,
                jsonStatus := "ok", jsonVersion := "1.2.3" }
  else if u = "https://ex.example/api/run?q=1" then
    .response { statusCode := 200, status := "200 OK",
                contentType := "text/html; charset=utf-8" }
  else .connErr "dial tcp: connection refused"

/-- The monitor's 5-second client over each fixture network. -/
def clientOkA : HttpClient := { timeoutSeconds := 5, fetch := fetchOkA }

/-- The monitor's client over the all-down network. -/
def clientDown : HttpClient := { timeoutSeconds := 5, fetch := fetchDown }

/-- The monitor's client over the 404-example network. -/
def client404A : HttpClient := { timeoutSeconds := 5, fetch := fetch404A }

/-- The monitor's client over the HTML-decoy network. -/
def clientHtmlA : HttpClient := { timeoutSeconds := 5, fetch := fetchHtmlA }

/-- Alpha with its circuit currently open until t = 1000. -/
def svcOpenA : Service := { svcA with circuitOpenUntil := 1000 }

/-- Alpha with five accumulated failures and a circuit that expired at
t = 100. -/
def svcExpiredA : Service :=
  { svcA with consecutiveFailures := 5, circuitOpenUntil := 100 }

/-- Cycle inputs recording one all-down cycle followed by one healthy
cycle. -/
def insC5 : List monitor.CycleIn :=
  [⟨clientDown, 0, 7⟩, ⟨clientOkA, 30, 7⟩]

/-- Cycle inputs recording five degraded cycles (tripping the breaker on
the fifth, at t = 120) followed by one cycle inside the cooldown
window. -/
def insC7 : List monitor.CycleIn :=
  [⟨client404A, 0, 7⟩, ⟨client404A, 30, 7⟩, ⟨client404A, 60, 7⟩,
   ⟨client404A, 90, 7⟩, ⟨client404A, 120, 7⟩, ⟨client404A, 150, 7⟩]

/-- The Check Engine verdict alpha receives on the all-down network. -/
def resultDownA : checker.CheckServiceResult :=
  { status := "unhealthy", healthStatus := "fail", exampleStatus := "fail",
    lastError := "Internal health: dial tcp: connection refused | Public health: dial tcp: connection refused",
    version := "", responseMs := 7 }

/-! Helper lemmas shared by the claim theorems. -/

theorem publicFallback_svc (c : HttpClient) (svc : Service) (hErr : String) (tr : List ReqLog) :
    (checker.publicFallback c svc hErr tr).svc = svc := by
  unfold checker.publicFallback
  repeat' split
  all_goals rfl

theorem checkHealthStep_frame (c : HttpClient) (svc : Service) :
    (checker.checkHealthStep c svc).svc.consecutiveFailures = svc.consecutiveFailures ∧
    (checker.checkHealthStep c svc).svc.circuitOpenUntil = svc.circuitOpenUntil ∧
    (checker.checkHealthStep c svc).svc.healthHistory = svc.healthHistory ∧
    (checker.checkHealthStep c svc).svc.id = svc.id ∧
    (checker.checkHealthStep c svc).svc.version = svc.version := by
  unfold checker.checkHealthStep
  rcases h : (checker.tryInternalRequest c svc "/health").result with _ | ⟨resp, url⟩ <;>
    simp only [h] <;> (repeat' split) <;> simp [publicFallback_svc]

theorem checkService_frame (c : HttpClient) (svc : Service) (e : Int) :
    (checker.checkService c svc e).svc.consecutiveFailures = svc.consecutiveFailures ∧
    (checker.checkService c svc e).svc.circuitOpenUntil = svc.circuitOpenUntil ∧
    (checker.checkService c svc e).svc.healthHistory = svc.healthHistory ∧
    (checker.checkService c svc e).svc.id = svc.id ∧
    (checker.checkService c svc e).svc.version = svc.version := by
  simpa [checker.checkService] using checkHealthStep_frame c svc

theorem retryCheck_frame (c : HttpClient) (svc : Service) (e : Int) :
    (monitor.retryCheck c svc e).1.svc.consecutiveFailures = svc.consecutiveFailures ∧
    (monitor.retryCheck c svc e).1.svc.circuitOpenUntil = svc.circuitOpenUntil ∧
    (monitor.retryCheck c svc e).1.svc.healthHistory = svc.healthHistory ∧
    (monitor.retryCheck c svc e).1.svc.id = svc.id ∧
    (monitor.retryCheck c svc e).1.svc.version = svc.version := by
  obtain ⟨a1, b1, c1, d1, e1⟩ := checkService_frame c svc e
  obtain ⟨a2, b2, c2, d2, e2⟩ :=
    checkService_frame c (checker.checkService c svc e).svc e
  obtain ⟨a3, b3, c3, d3, e3⟩ :=
    checkService_frame c (checker.checkService c (checker.checkService c svc e).svc e).svc e
  by_cases h1 : (checker.checkService c svc e).result.status = "healthy" <;>
    by_cases h2 :
      (checker.checkService c (checker.checkService c svc e).svc e).result.status = "healthy" <;>
    simp_all [monitor.retryCheck]

theorem applyResult_cf (svc : Service) (r : checker.CheckServiceResult) (now : Nat) :
    (monitor.applyResult svc r now).consecutiveFailures =
      if r.status = "healthy" then 0 else svc.consecutiveFailures + 1 := by
  by_cases hs : r.status = "healthy" <;>
    simp [monitor.applyResult, hs] <;> split <;> simp

theorem applyResult_circuit (svc : Service) (r : checker.CheckServiceResult) (now : Nat) :
    (monitor.applyResult svc r now).circuitOpenUntil =
      if r.status = "healthy" then 0
      else if svc.consecutiveFailures + 1 ≥ 5 then now + 5 * 60
      else svc.circuitOpenUntil := by
  by_cases hs : r.status = "healthy" <;>
    simp [monitor.applyResult, hs] <;> split <;> simp

theorem applyResult_status (svc : Service) (r : checker.CheckServiceResult) (now : Nat) :
    (monitor.applyResult svc r now).status = r.status := by
  by_cases hs : r.status = "healthy" <;>
    simp [monitor.applyResult, hs] <;> split <;> simp

theorem applyResult_lastError_trip (svc : Service) (r : checker.CheckServiceResult) (now : Nat)
    (hs : r.status ≠ "healthy") (hcf : svc.consecutiveFailures + 1 ≥ 5) :
    (monitor.applyResult svc r now).lastError = monitor.circuitTrippedMsg := by
  simp [monitor.applyResult, hs, hcf]

theorem applyResult_history (svc : Service) (r : checker.CheckServiceResult) (now : Nat) :
    (monitor.applyResult svc r now).healthHistory =
      if (svc.healthHistory ++ [r.status]).length > 5 then (svc.healthHistory ++ [r.status]).tail
      else svc.healthHistory ++ [r.status] := by
  by_cases hs : r.status = "healthy" <;>
    simp [monitor.applyResult, hs] <;> split <;> simp

theorem cycle_cf (c : HttpClient) (svc : Service) (now : Nat) (e : Int) :
    (monitor.checkServiceCycle c svc now e).svc.consecutiveFailures =
      match (monitor.checkServiceCycle c svc now e).probed with
      | none => svc.consecutiveFailures
      | some r => if r.status = "healthy" then 0 else svc.consecutiveFailures + 1 := by
  by_cases hgate : svc.circuitOpenUntil ≠ 0 ∧ now < svc.circuitOpenUntil
  · simp [monitor.checkServiceCycle, hgate]
  · obtain ⟨fcf, _, _, _, _⟩ := retryCheck_frame c svc e
    simp [monitor.checkServiceCycle, hgate, applyResult_cf, fcf]

theorem runCycles_cf (l : List monitor.CycleIn) : ∀ svc : Service,
    (monitor.runCycles svc l).1.consecutiveFailures =
      monitor.cfStep svc.consecutiveFailures (monitor.runCycles svc l).2 := by
  induction l with
  | nil => intro svc; simp [monitor.runCycles, monitor.cfStep]
  | cons i rest ih =>
    intro svc
    have hc := cycle_cf i.client svc i.now i.elapsedMs
    rcases hp : (monitor.checkServiceCycle i.client svc i.now i.elapsedMs).probed with _ | r <;>
      (rw [hp] at hc; simp [monitor.runCycles, hp, ih, hc, monitor.cfStep])

theorem cfStep_append (v : String) (vs : List String) : ∀ cf : Nat,
    monitor.cfStep cf (vs ++ [v]) = if v = "healthy" then 0 else monitor.cfStep cf vs + 1 := by
  induction vs with
  | nil => intro cf; simp [monitor.cfStep]
  | cons a tl ih => intro cf; simp [monitor.cfStep, ih]

theorem trailing_append (v : String) (vs : List String) :
    monitor.trailingNonHealthy (vs ++ [v]) =
      if v = "healthy" then 0 else monitor.trailingNonHealthy vs + 1 := by
  by_cases hv : v = "healthy" <;>
    simp [monitor.trailingNonHealthy, List.takeWhile, hv]

theorem cfStep_zero (vs : List String) :
    monitor.cfStep 0 vs = monitor.trailingNonHealthy vs := by
  induction vs using List.reverseRecOn with
  | nil => simp [monitor.cfStep, monitor.trailingNonHealthy]
  | append_singleton tl v ih => rw [cfStep_append, trailing_append]; split <;> simp [ih]

theorem trailing_zero_iff (vs : List String) (h : vs ≠ []) :
    monitor.trailingNonHealthy vs = 0 ↔ vs.getLast? = some "healthy" := by
  induction vs using List.reverseRecOn with
  | nil => simp at h
  | append_singleton tl v ih =>
    rw [trailing_append]
    by_cases hv : v = "healthy" <;> simp [hv]

theorem appendHist_getLast (hh : List String) (s : String) :
    (if (hh ++ [s]).length > 5 then (hh ++ [s]).tail else hh ++ [s]).getLast? = some s := by
  split
  · cases hh with
    | nil => simp_all
    | cons a t => simp [List.getLast?_concat]
  · simp [List.getLast?_concat]

theorem appendHist_len (hh : List String) (s : String) (h : hh.length ≤ 5) :
    (if (hh ++ [s]).length > 5 then (hh ++ [s]).tail else hh ++ [s]).length ≤ 5 := by
  split <;> simp_all
  all_goals omega

theorem tryCandidates_timeout (c : HttpClient) (path : String) (cands : List (String × Int)) :
    ∀ (le : String) (x : ReqLog), x ∈ (checker.tryCandidates c path cands le).trace →
      x.timeoutSeconds = c.timeoutSeconds := by
  induction cands with
  | nil => intro le x hx; simp [checker.tryCandidates] at hx
  | cons hd tl ih =>
    intro le x hx
    obtain ⟨host, port⟩ := hd
    rcases hf : c.fetch (checker.mkUrl host port path) with m | r <;>
      simp only [checker.tryCandidates, hf] at hx
    · rcases List.mem_cons.mp hx with h | h
      · subst h; rfl
      · exact ih _ _ h
    · split at hx
      · simp at hx; subst hx; rfl
      · rcases List.mem_cons.mp hx with h | h
        · subst h; rfl
        · exact ih _ _ h

theorem tryInternalRequest_timeout (c : HttpClient) (svc : Service) (path : String) :
    ∀ x ∈ (checker.tryInternalRequest c svc path).trace, x.timeoutSeconds = c.timeoutSeconds := by
  intro x hx
  exact tryCandidates_timeout c path _ _ x hx

theorem publicFallback_timeout (c : HttpClient) (svc : Service) (hErr : String)
    (tr : List ReqLog) (htr : ∀ x ∈ tr, x.timeoutSeconds = c.timeoutSeconds) :
    ∀ x ∈ (checker.publicFallback c svc hErr tr).trace, x.timeoutSeconds = c.timeoutSeconds := by
  intro x hx
  unfold checker.publicFallback at hx
  repeat' split at hx
  all_goals simp at hx
  all_goals try exact htr x hx
  all_goals
    rcases hx with h | h
    · exact htr x h
    · rw [h]

theorem checkHealthStep_timeout (c : HttpClient) (svc : Service) :
    ∀ x ∈ (checker.checkHealthStep c svc).trace, x.timeoutSeconds = c.timeoutSeconds := by
  intro x hx
  unfold checker.checkHealthStep at hx
  have hbase := tryInternalRequest_timeout c svc "/health"
  rcases h : (checker.tryInternalRequest c svc "/health").result with _ | ⟨resp, url⟩ <;>
    simp only [h] at hx
  · exact publicFallback_timeout c svc _ _ hbase x hx
  · split at hx
    · repeat' split at hx
      all_goals simp at hx; exact hbase x hx
    · exact publicFallback_timeout c svc _ _ hbase x hx

theorem internalDiagnosis_timeout (c : HttpClient) (svc : Service) (eErr : String) (code : Nat)
    (tr : List ReqLog) (htr : ∀ x ∈ tr, x.timeoutSeconds = c.timeoutSeconds) :
    ∀ x ∈ (checker.internalDiagnosis c svc eErr code tr).trace,
      x.timeoutSeconds = c.timeoutSeconds := by
  intro x hx
  unfold checker.internalDiagnosis at hx
  have hbase := tryInternalRequest_timeout c svc (checker.getPathFromURL svc.exampleURL)
  rcases hres : (checker.tryInternalRequest c svc (checker.getPathFromURL svc.exampleURL)).result
      with _ | ⟨resp, u⟩ <;>
    simp only [hres] at hx
  · simp at hx
    rcases hx with h | h
    · exact htr x h
    · exact hbase x h
  · split at hx
    all_goals simp at hx
    all_goals rcases hx with h | h
    all_goals first
      | exact htr x h
      | exact hbase x h

theorem checkExampleStep_timeout (c : HttpClient) (svc : Service) :
    ∀ x ∈ (checker.checkExampleStep c svc).trace, x.timeoutSeconds = c.timeoutSeconds := by
  intro x hx
  unfold checker.checkExampleStep at hx
  have hlog : ∀ y ∈ [ReqLog.mk svc.exampleURL c.timeoutSeconds],
      y.timeoutSeconds = c.timeoutSeconds := by simp
  repeat' split at hx
  all_goals first
    | exact internalDiagnosis_timeout c svc _ _ _ hlog x hx
    | (simp at hx; simp [hx])
    | simp at hx

theorem checkService_timeout (c : HttpClient) (svc : Service) (e : Int) :
    ∀ x ∈ (checker.checkService c svc e).trace, x.timeoutSeconds = c.timeoutSeconds := by
  intro x hx
  simp only [checker.checkService] at hx
  rcases List.mem_append.mp hx with h | h
  · exact checkHealthStep_timeout c svc x h
  · exact checkExampleStep_timeout c _ x h

theorem retryCheck_timeout (c : HttpClient) (svc : Service) (e : Int) :
    ∀ x ∈ (monitor.retryCheck c svc e).2, x.timeoutSeconds = c.timeoutSeconds := by
  intro x hx
  by_cases h1 : (checker.checkService c svc e).result.status = "healthy"
  · simp [monitor.retryCheck, h1] at hx
    exact checkService_timeout c svc e x hx
  · by_cases h2 :
      (checker.checkService c (checker.checkService c svc e).svc e).result.status = "healthy"
    · simp [monitor.retryCheck, h1, h2, List.mem_append] at hx
      rcases hx with h | h
      · exact checkService_timeout c svc e x h
      · exact checkService_timeout c _ e x h
    · simp [monitor.retryCheck, h1, h2, List.mem_append] at hx
      rcases hx with h | h | h
      · exact checkService_timeout c svc e x h
      · exact checkService_timeout c _ e x h
      · exact checkService_timeout c _ e x h

theorem checkServiceCycle_timeout (c : HttpClient) (svc : Service) (now : Nat) (e : Int) :
    ∀ x ∈ (monitor.checkServiceCycle c svc now e).trace, x.timeoutSeconds = c.timeoutSeconds := by
  intro x hx
  unfold monitor.checkServiceCycle at hx
  split at hx
  · simp at hx
  · simp only at hx
    exact retryCheck_timeout c svc e x hx

theorem testActiveLink_timeout (c : HttpClient) (svc : Service) (e : Int) :
    ∀ x ∈ (checker.testActiveLink c svc e).2, x.timeoutSeconds = c.timeoutSeconds := by
  intro x hx
  unfold checker.testActiveLink at hx
  split at hx
  · have hbase := tryInternalRequest_timeout c svc (checker.getPathFromURL svc.exampleURL)
    rcases hres : (checker.tryInternalRequest c svc (checker.getPathFromURL svc.exampleURL)).result
        with _ | ⟨resp, u⟩ <;>
      simp only [hres] at hx
    · exact hbase x hx
    · repeat' split at hx
      all_goals exact hbase x hx
  · have hbase := tryInternalRequest_timeout c svc "/health"
    rcases hres : (checker.tryInternalRequest c svc "/health").result
        with _ | ⟨resp, u⟩ <;>
      simp only [hres] at hx
    · exact hbase x hx
    · repeat' split at hx
      all_goals exact hbase x hx

theorem testActiveLinkM_timeout (c : HttpClient) (reg : List Service) (id : String) (e : Int) :
    ∀ x ∈ (monitor.testActiveLinkM c reg id e).trace, x.timeoutSeconds = c.timeoutSeconds := by
  intro x hx
  unfold monitor.testActiveLinkM at hx
  split at hx
  · simp at hx
  · simp only at hx
    exact testActiveLink_timeout c _ e x hx

/-! Claim theorems.  Each claim of the specification is settled by one
theorem below, together with a witness instantiation when the theorem
carries hypotheses, and a concrete counterexample where the claim as
stated fails on the code. -/

/-- Claim C1: for every check of a service, the Check Engine's verdict is
healthy if and only if both the liveness signal and the example signal
are ok; if liveness failed the verdict is unhealthy with the diagnostic
equal to the liveness error; and if liveness is ok but the example signal
failed with an example status code at least 500 or equal to 0, the
verdict is unhealthy with the diagnostic equal to the example error. -/
theorem claim1_two_signal_verdict (c : HttpClient) (svc : Service) (e : Int) :
    ((checker.checkService c svc e).result.status = "healthy" ↔
      ((checker.checkService c svc e).result.healthStatus = "ok" ∧
       (checker.checkService c svc e).result.exampleStatus = "ok")) ∧
    ((checker.checkService c svc e).result.healthStatus = "fail" →
      (checker.checkService c svc e).result.status = "unhealthy" ∧
      (checker.checkService c svc e).result.lastError = (checker.checkService c svc e).healthError) ∧
    ((checker.checkService c svc e).result.healthStatus = "ok" →
      (checker.checkService c svc e).result.exampleStatus = "fail" →
      500 ≤ (checker.checkService c svc e).exampleStatusCode ∨
        (checker.checkService c svc e).exampleStatusCode = 0 →
      (checker.checkService c svc e).result.status = "unhealthy" ∧
      (checker.checkService c svc e).result.lastError = (checker.checkService c svc e).exampleError) := by
  simp only [checker.checkService]
  generalize checker.checkHealthStep c svc = h
  generalize checker.checkExampleStep c h.svc = ex
  obtain ⟨hOK, ver, hErr, svc2, tr⟩ := h
  obtain ⟨eOK, code, eErr, tr2⟩ := ex
  by_cases hc : 500 ≤ code ∨ code = 0 <;>
    cases hOK <;> cases eOK <;>
      simp [checker.computeFinalStatus, hc]

/-- Witness for C1 on the all-down network, where the liveness-failed
branch applies. -/
theorem claim1_witness :
    ((checker.checkService clientDown svcA 7).result.status = "healthy" ↔
      ((checker.checkService clientDown svcA 7).result.healthStatus = "ok" ∧
       (checker.checkService clientDown svcA 7).result.exampleStatus = "ok")) ∧
    ((checker.checkService clientDown svcA 7).result.healthStatus = "fail" →
      (checker.checkService clientDown svcA 7).result.status = "unhealthy" ∧
      (checker.checkService clientDown svcA 7).result.lastError =
        (checker.checkService clientDown svcA 7).healthError) ∧
    ((checker.checkService clientDown svcA 7).result.healthStatus = "ok" →
      (checker.checkService clientDown svcA 7).result.exampleStatus = "fail" →
      500 ≤ (checker.checkService clientDown svcA 7).exampleStatusCode ∨
        (checker.checkService clientDown svcA 7).exampleStatusCode = 0 →
      (checker.checkService clientDown svcA 7).result.status = "unhealthy" ∧
      (checker.checkService clientDown svcA 7).result.lastError =
        (checker.checkService clientDown svcA 7).exampleError) :=
  claim1_two_signal_verdict clientDown svcA 7

/-- Claim C2 counterexample: alpha's circuit is open until t = 1000, yet
the operator-triggered Test Engine path (`Monitor.TestActiveLink`, which
never consults `circuit_open_until` and takes no clock at all) issues
four outbound HTTP requests for the service; so it is not true that no
outbound request is issued for a service while its circuit is open. -/
theorem claim2_test_engine_probes_open_circuit :
    500 < svcOpenA.circuitOpenUntil ∧
    (monitor.testActiveLinkM clientDown [svcOpenA] "alpha" 3).trace.length = 4 := by
  exact ⟨by decide, by decide⟩

/-- Claim C2 (amended): while `circuit_open_until` is ahead of the clock,
the periodic per-service cycle issues no outbound HTTP request, records
no verdict, and instead sets the record to unhealthy with the cooldown
diagnostic; operator-triggered Test Engine probes are not suppressed. -/
theorem claim2_open_circuit_skips_periodic_probe (c : HttpClient) (svc : Service)
    (now : Nat) (e : Int)
    (h0 : svc.circuitOpenUntil ≠ 0) (hlt : now < svc.circuitOpenUntil) :
    (monitor.checkServiceCycle c svc now e).trace = [] ∧
    (monitor.checkServiceCycle c svc now e).probed = none ∧
    (monitor.checkServiceCycle c svc now e).svc.status = "unhealthy" ∧
    (monitor.checkServiceCycle c svc now e).svc.lastError =
      monitor.circuitOpenMsg svc.circuitOpenUntil := by
  simp [monitor.checkServiceCycle, h0, hlt]

/-- Witness for the amended C2 at t = 500 against the open circuit. -/
theorem claim2_witness :
    (monitor.checkServiceCycle clientDown svcOpenA 500 3).trace = [] ∧
    (monitor.checkServiceCycle clientDown svcOpenA 500 3).probed = none ∧
    (monitor.checkServiceCycle clientDown svcOpenA 500 3).svc.status = "unhealthy" ∧
    (monitor.checkServiceCycle clientDown svcOpenA 500 3).svc.lastError =
      monitor.circuitOpenMsg svcOpenA.circuitOpenUntil :=
  claim2_open_circuit_skips_periodic_probe clientDown svcOpenA 500 3 (by decide) (by decide)

/-- Claim C3: at the end of every per-service cycle that actually probed,
a non-healthy verdict increments `consecutive_failures` by one, and once
the counter reaches five the circuit opens for five minutes and
`last_error` is overwritten with the trip diagnostic; a healthy verdict
resets the counter and clears the circuit. -/
theorem claim3_circuit_update (c : HttpClient) (svc : Service) (now : Nat) (e : Int)
    (r : checker.CheckServiceResult)
    (hr : (monitor.checkServiceCycle c svc now e).probed = some r) :
    (r.status ≠ "healthy" →
      (monitor.checkServiceCycle c svc now e).svc.consecutiveFailures =
        svc.consecutiveFailures + 1 ∧
      (svc.consecutiveFailures + 1 ≥ 5 →
        (monitor.checkServiceCycle c svc now e).svc.circuitOpenUntil = now + 5 * 60 ∧
        (monitor.checkServiceCycle c svc now e).svc.lastError = monitor.circuitTrippedMsg)) ∧
    (r.status = "healthy" →
      (monitor.checkServiceCycle c svc now e).svc.consecutiveFailures = 0 ∧
      (monitor.checkServiceCycle c svc now e).svc.circuitOpenUntil = 0) := by
  by_cases hgate : svc.circuitOpenUntil ≠ 0 ∧ now < svc.circuitOpenUntil
  · simp [monitor.checkServiceCycle, hgate] at hr
  · obtain ⟨fcf, fcirc, fhh, fid, fver⟩ := retryCheck_frame c svc e
    simp only [monitor.checkServiceCycle, if_neg hgate, Option.some.injEq] at hr ⊢
    subst hr
    constructor
    · intro hns
      refine ⟨?_, fun h5 => ⟨?_, ?_⟩⟩
      · rw [applyResult_cf, if_neg hns, fcf]
      · rw [applyResult_circuit, if_neg hns, fcf, if_pos h5]
      · exact applyResult_lastError_trip _ _ _ hns (by rw [fcf]; exact h5)
    · intro hhe
      exact ⟨by rw [applyResult_cf, if_pos hhe], by rw [applyResult_circuit, if_pos hhe]⟩

/-- Witness for C3: a probed cycle on the all-down network returns the
unhealthy verdict `resultDownA`. -/
theorem claim3_witness :
    (resultDownA.status ≠ "healthy" →
      (monitor.checkServiceCycle clientDown svcA 0 7).svc.consecutiveFailures =
        svcA.consecutiveFailures + 1 ∧
      (svcA.consecutiveFailures + 1 ≥ 5 →
        (monitor.checkServiceCycle clientDown svcA 0 7).svc.circuitOpenUntil = 0 + 5 * 60 ∧
        (monitor.checkServiceCycle clientDown svcA 0 7).svc.lastError =
          monitor.circuitTrippedMsg)) ∧
    (resultDownA.status = "healthy" →
      (monitor.checkServiceCycle clientDown svcA 0 7).svc.consecutiveFailures = 0 ∧
      (monitor.checkServiceCycle clientDown svcA 0 7).svc.circuitOpenUntil = 0) :=
  claim3_circuit_update clientDown svcA 0 7 resultDownA (by decide)

/-- Claim C4 counterexample: alpha has five accumulated failures and a
circuit that expired at t = 100.  The cycle at t = 100 does probe, but on
a failing probe `consecutive_failures` becomes 6 rather than being reset
to 0, and the circuit immediately reopens until t = 400; the breaker
does not transition to a Closed state with zero failures as the state
diagram claims. -/
theorem claim4_expiry_does_not_reset_failures :
    svcExpiredA.circuitOpenUntil ≠ 0 ∧
    svcExpiredA.circuitOpenUntil ≤ 100 ∧
    (monitor.checkServiceCycle clientDown svcExpiredA 100 7).probed.isSome = true ∧
    (monitor.checkServiceCycle clientDown svcExpiredA 100 7).svc.consecutiveFailures = 6 ∧
    (monitor.checkServiceCycle clientDown svcExpiredA 100 7).svc.circuitOpenUntil = 100 + 5 * 60 := by
  refine ⟨by decide, by decide, by decide, by decide, by decide⟩

/-- Claim C4 (amended): whenever a cycle runs for a service whose circuit
has expired, the probe runs; `consecutive_failures` is reset to 0 (and
the circuit cleared) only when that probe's verdict is healthy, while a
non-healthy verdict increments the counter from its pre-open value. -/
theorem claim4_expired_circuit_probes_again (c : HttpClient) (svc : Service) (now : Nat) (e : Int)
    (h0 : svc.circuitOpenUntil ≠ 0) (hexp : svc.circuitOpenUntil ≤ now) :
    ((monitor.checkServiceCycle c svc now e).probed).isSome = true ∧
    (∀ r, (monitor.checkServiceCycle c svc now e).probed = some r →
      ((r.status = "healthy" →
        (monitor.checkServiceCycle c svc now e).svc.consecutiveFailures = 0 ∧
        (monitor.checkServiceCycle c svc now e).svc.circuitOpenUntil = 0) ∧
      (r.status ≠ "healthy" →
        (monitor.checkServiceCycle c svc now e).svc.consecutiveFailures =
          svc.consecutiveFailures + 1))) := by
  have hgate : ¬(svc.circuitOpenUntil ≠ 0 ∧ now < svc.circuitOpenUntil) := by
    push_neg
    intro _
    omega
  obtain ⟨fcf, fcirc, fhh, fid, fver⟩ := retryCheck_frame c svc e
  simp only [monitor.checkServiceCycle, if_neg hgate]
  refine ⟨rfl, ?_⟩
  intro r hr
  simp only [Option.some.injEq] at hr
  subst hr
  constructor
  · intro hhe
    exact ⟨by rw [applyResult_cf, if_pos hhe], by rw [applyResult_circuit, if_pos hhe]⟩
  · intro hns
    rw [applyResult_cf, if_neg hns, fcf]

/-- Witness for the amended C4: the expired circuit at t = 100 probes
again on the healthy network. -/
theorem claim4_witness :
    ((monitor.checkServiceCycle clientOkA svcExpiredA 100 7).probed).isSome = true ∧
    (∀ r, (monitor.checkServiceCycle clientOkA svcExpiredA 100 7).probed = some r →
      ((r.status = "healthy" →
        (monitor.checkServiceCycle clientOkA svcExpiredA 100 7).svc.consecutiveFailures = 0 ∧
        (monitor.checkServiceCycle clientOkA svcExpiredA 100 7).svc.circuitOpenUntil = 0) ∧
      (r.status ≠ "healthy" →
        (monitor.checkServiceCycle clientOkA svcExpiredA 100 7).svc.consecutiveFailures =
          svcExpiredA.consecutiveFailures + 1))) :=
  claim4_expired_circuit_probes_again clientOkA svcExpiredA 100 7 (by decide) (by decide)

/-- Claim C5: starting from a freshly loaded record (zero consecutive
failures), after any sequence of cycles `consecutive_failures` equals the
number of back-to-back non-healthy verdicts recorded since the last
healthy one, and it is zero exactly when the last recorded verdict was
healthy.  Skipped (circuit-open) cycles record no verdict. -/
theorem claim5_failures_count_recorded_verdicts (svc : Service)
    (h0 : svc.consecutiveFailures = 0) (l : List monitor.CycleIn) :
    (monitor.runCycles svc l).1.consecutiveFailures =
      monitor.trailingNonHealthy (monitor.runCycles svc l).2 ∧
    ((monitor.runCycles svc l).2 ≠ [] →
      ((monitor.runCycles svc l).1.consecutiveFailures = 0 ↔
        (monitor.runCycles svc l).2.getLast? = some "healthy")) := by
  have hcf := runCycles_cf l svc
  rw [h0, cfStep_zero] at hcf
  exact ⟨hcf, fun hne => by rw [hcf]; exact trailing_zero_iff _ hne⟩

/-- Witness for C5: one failing cycle then one healthy cycle. -/
theorem claim5_witness :
    (monitor.runCycles svcA insC5).1.consecutiveFailures =
      monitor.trailingNonHealthy (monitor.runCycles svcA insC5).2 ∧
    ((monitor.runCycles svcA insC5).2 ≠ [] →
      ((monitor.runCycles svcA insC5).1.consecutiveFailures = 0 ↔
        (monitor.runCycles svcA insC5).2.getLast? = some "healthy")) :=
  claim5_failures_count_recorded_verdicts svcA rfl insC5

/-- Claim C6 counterexample: on the HTML-decoy network (liveness fine,
public example answering 200 with `text/html`, internal example
unreachable) the verdict is degraded while the example status code is
200, not a 4xx; so degraded does not imply a 4xx example response. -/
theorem claim6_degraded_html_decoy :
    (checker.checkService clientHtmlA svcA 7).result.status = "degraded" ∧
    (checker.checkService clientHtmlA svcA 7).exampleStatusCode = 200 ∧
    ¬(400 ≤ (checker.checkService clientHtmlA svcA 7).exampleStatusCode ∧
      (checker.checkService clientHtmlA svcA 7).exampleStatusCode < 500) := by
  refine ⟨by decide, by decide, by decide⟩

/-- Claim C6 (amended): whenever the Check Engine's verdict is degraded,
the liveness signal is ok, the example signal failed, and the example
status code is neither 0 (transport error) nor 500 or more: it is a 4xx,
or a 2xx/3xx whose response was rejected (HTML decoy). -/
theorem claim6_degraded_signals (c : HttpClient) (svc : Service) (e : Int)
    (hd : (checker.checkService c svc e).result.status = "degraded") :
    (checker.checkService c svc e).result.healthStatus = "ok" ∧
    (checker.checkService c svc e).result.exampleStatus = "fail" ∧
    (checker.checkService c svc e).exampleStatusCode ≠ 0 ∧
    (checker.checkService c svc e).exampleStatusCode < 500 := by
  revert hd
  simp only [checker.checkService]
  generalize checker.checkHealthStep c svc = h
  generalize checker.checkExampleStep c h.svc = ex
  obtain ⟨hOK, ver, hErr, svc2, tr⟩ := h
  obtain ⟨eOK, code, eErr, tr2⟩ := ex
  intro hd
  by_cases hc : 500 ≤ code ∨ code = 0 <;>
    cases hOK <;> cases eOK <;>
      simp_all [checker.computeFinalStatus]
  all_goals (push_neg at hc; omega)

/-- Witness for the amended C6 on the 404 network, where the verdict is
degraded. -/
theorem claim6_witness :
    (checker.checkService client404A svcA 7).result.healthStatus = "ok" ∧
    (checker.checkService client404A svcA 7).result.exampleStatus = "fail" ∧
    (checker.checkService client404A svcA 7).exampleStatusCode ≠ 0 ∧
    (checker.checkService client404A svcA 7).exampleStatusCode < 500 :=
  claim6_degraded_signals client404A svcA 7 (by decide)

/-- Claim C7 counterexample: five degraded cycles trip the breaker, and
the sixth cycle falls inside the cooldown window.  That skipped cycle
overwrites `status` with unhealthy but appends nothing to the history, so
after the cycle the newest history entry is degraded, not the record's
current status.  The length bound itself still holds. -/
theorem claim7_skip_breaks_newest_status :
    (monitor.runCycles svcA insC7).1.status = "unhealthy" ∧
    (monitor.runCycles svcA insC7).1.healthHistory.getLast? = some "degraded" ∧
    (monitor.runCycles svcA insC7).1.healthHistory.getLast? ≠
      some (monitor.runCycles svcA insC7).1.status ∧
    (monitor.runCycles svcA insC7).1.healthHistory.length ≤ 5 := by
  refine ⟨by decide, by decide, by decide, by decide⟩

/-- Claim C7 (amended): every cycle keeps the history at no more than
five entries (append and drop the oldest when full); after a cycle that
probed, the newest history entry equals the record's status; after a
skipped (circuit-open) cycle the history is unchanged while the status is
overwritten with unhealthy, so the newest entry then reflects the last
probed verdict instead. -/
theorem claim7_history_bound_and_newest (c : HttpClient) (svc : Service) (now : Nat) (e : Int) :
    (svc.healthHistory.length ≤ 5 →
      (monitor.checkServiceCycle c svc now e).svc.healthHistory.length ≤ 5) ∧
    ((monitor.checkServiceCycle c svc now e).probed.isSome = true →
      (monitor.checkServiceCycle c svc now e).svc.healthHistory.getLast? =
        some (monitor.checkServiceCycle c svc now e).svc.status) ∧
    ((monitor.checkServiceCycle c svc now e).probed = none →
      (monitor.checkServiceCycle c svc now e).svc.healthHistory = svc.healthHistory ∧
      (monitor.checkServiceCycle c svc now e).svc.status = "unhealthy") := by
  by_cases hgate : svc.circuitOpenUntil ≠ 0 ∧ now < svc.circuitOpenUntil
  · simp [monitor.checkServiceCycle, hgate]
  · obtain ⟨fcf, fcirc, fhh, fid, fver⟩ := retryCheck_frame c svc e
    simp only [monitor.checkServiceCycle, if_neg hgate]
    refine ⟨?_, ?_, ?_⟩
    · intro hlen
      rw [applyResult_history, fhh]
      exact appendHist_len _ _ hlen
    · intro _
      rw [applyResult_history, applyResult_status, fhh]
      exact appendHist_getLast _ _
    · intro hno
      simp at hno

/-- Witness for the amended C7 on a probed degraded cycle. -/
theorem claim7_witness :
    (svcA.healthHistory.length ≤ 5 →
      (monitor.checkServiceCycle client404A svcA 0 7).svc.healthHistory.length ≤ 5) ∧
    ((monitor.checkServiceCycle client404A svcA 0 7).probed.isSome = true →
      (monitor.checkServiceCycle client404A svcA 0 7).svc.healthHistory.getLast? =
        some (monitor.checkServiceCycle client404A svcA 0 7).svc.status) ∧
    ((monitor.checkServiceCycle client404A svcA 0 7).probed = none →
      (monitor.checkServiceCycle client404A svcA 0 7).svc.healthHistory = svcA.healthHistory ∧
      (monitor.checkServiceCycle client404A svcA 0 7).svc.status = "unhealthy") :=
  claim7_history_bound_and_newest client404A svcA 0 7

/-- Claim C8: the spec requires POST on `/api/test/` with an unknown id
to answer 404, and the handler indeed maps a non-nil `TestActiveLink`
error to 404 — but `Monitor.TestActiveLink` returns a nil error for an
unknown id, so the 404 branch is dead and the handler answers 200 with
empty test fields.  Evaluated here at the failing input: id `ghost`
against a registry holding only `alpha`. -/
theorem claim8_unknown_id_answered_200 :
    ([svcA].find? (fun s => s.id == "ghost") = none) ∧
    (monitor.testActiveLinkM clientDown [svcA] "ghost" 0).err = none ∧
    api.handleManualTest clientDown [svcA] "POST" "ghost" 0 =
      { code := 200, fields := [("id", "ghost"), ("test_status", ""), ("test_error", "")] } ∧
    (api.handleManualTest clientDown [svcA] "POST" "ghost" 0).code ≠ 404 := by
  refine ⟨by decide, by decide, by decide, by decide⟩

/-- Claim C9 counterexample: the monitor built by `NewMonitor` carries a
single shared client with a 5-second timeout, and `Monitor.TestActiveLink`
passes exactly that client to the Test Engine, so its outbound requests
use 5 seconds, not the claimed 10. -/
theorem claim9_test_engine_uses_5s :
    (monitor.newMonitor fetchDown [svcA]).client.timeoutSeconds = 5 ∧
    (monitor.testActiveLinkM (monitor.newMonitor fetchDown [svcA]).client [svcA] "alpha" 3).trace
      ≠ [] ∧
    ((monitor.testActiveLinkM (monitor.newMonitor fetchDown [svcA]).client [svcA] "alpha" 3).trace.all
      (fun x => x.timeoutSeconds == 10)) = false := by
  refine ⟨rfl, by decide, by decide⟩

/-- Claim C9 (amended): every outbound HTTP request issued through the
monitor built by `NewMonitor` — by the periodic per-service cycle and by
the operator-triggered `TestActiveLink` alike — uses the monitor's shared
client with its 5-second timeout. -/
theorem claim9_all_requests_use_5s_timeout (f : String → HttpResult) (reg : List Service)
    (svc : Service) (id : String) (now : Nat) (e : Int) :
    (monitor.newMonitor f reg).client.timeoutSeconds = 5 ∧
    (∀ x ∈ (monitor.checkServiceCycle (monitor.newMonitor f reg).client svc now e).trace,
      x.timeoutSeconds = 5) ∧
    (∀ x ∈ (monitor.testActiveLinkM (monitor.newMonitor f reg).client reg id e).trace,
      x.timeoutSeconds = 5) := by
  refine ⟨rfl, ?_, ?_⟩
  · intro x hx
    exact checkServiceCycle_timeout _ svc now e x hx
  · intro x hx
    exact testActiveLinkM_timeout _ reg id e x hx

/-- Witness for the amended C9 over the all-down network. -/
theorem claim9_witness :
    (monitor.newMonitor fetchDown [svcA]).client.timeoutSeconds = 5 ∧
    (∀ x ∈ (monitor.checkServiceCycle (monitor.newMonitor fetchDown [svcA]).client svcA 0 7).trace,
      x.timeoutSeconds = 5) ∧
    (∀ x ∈ (monitor.testActiveLinkM (monitor.newMonitor fetchDown [svcA]).client [svcA] "alpha" 7).trace,
      x.timeoutSeconds = 5) :=
  claim9_all_requests_use_5s_timeout fetchDown [svcA] svcA "alpha" 0 7

/-- Claim C10: a cycle skipped because the circuit is open mutates only
`status` and `last_error`: every other record field is unchanged and no
`ServiceUpdate` is broadcast. -/
theorem claim10_skip_cycle_frame (c : HttpClient) (svc : Service) (now : Nat) (e : Int)
    (h0 : svc.circuitOpenUntil ≠ 0) (hlt : now < svc.circuitOpenUntil) :
    (monitor.checkServiceCycle c svc now e).svc.lastChecked = svc.lastChecked ∧
    (monitor.checkServiceCycle c svc now e).svc.responseMs = svc.responseMs ∧
    (monitor.checkServiceCycle c svc now e).svc.healthStatus = svc.healthStatus ∧
    (monitor.checkServiceCycle c svc now e).svc.exampleStatus = svc.exampleStatus ∧
    (monitor.checkServiceCycle c svc now e).svc.version = svc.version ∧
    (monitor.checkServiceCycle c svc now e).svc.healthHistory = svc.healthHistory ∧
    (monitor.checkServiceCycle c svc now e).svc.consecutiveFailures = svc.consecutiveFailures ∧
    (monitor.checkServiceCycle c svc now e).svc.circuitOpenUntil = svc.circuitOpenUntil ∧
    (monitor.checkServiceCycle c svc now e).svc.testStatus = svc.testStatus ∧
    (monitor.checkServiceCycle c svc now e).svc.testError = svc.testError ∧
    (monitor.checkServiceCycle c svc now e).svc.dockerName = svc.dockerName ∧
    (monitor.checkServiceCycle c svc now e).updates = [] := by
  simp [monitor.checkServiceCycle, h0, hlt]

/-- Witness for C10 on the open circuit at t = 500. -/
theorem claim10_witness :
    (monitor.checkServiceCycle clientDown svcOpenA 500 3).svc.lastChecked = svcOpenA.lastChecked ∧
    (monitor.checkServiceCycle clientDown svcOpenA 500 3).svc.responseMs = svcOpenA.responseMs ∧
    (monitor.checkServiceCycle clientDown svcOpenA 500 3).svc.healthStatus = svcOpenA.healthStatus ∧
    (monitor.checkServiceCycle clientDown svcOpenA 500 3).svc.exampleStatus = svcOpenA.exampleStatus ∧
    (monitor.checkServiceCycle clientDown svcOpenA 500 3).svc.version = svcOpenA.version ∧
    (monitor.checkServiceCycle clientDown svcOpenA 500 3).svc.healthHistory = svcOpenA.healthHistory ∧
    (monitor.checkServiceCycle clientDown svcOpenA 500 3).svc.consecutiveFailures =
      svcOpenA.consecutiveFailures ∧
    (monitor.checkServiceCycle clientDown svcOpenA 500 3).svc.circuitOpenUntil =
      svcOpenA.circuitOpenUntil ∧
    (monitor.checkServiceCycle clientDown svcOpenA 500 3).svc.testStatus = svcOpenA.testStatus ∧
    (monitor.checkServiceCycle clientDown svcOpenA 500 3).svc.testError = svcOpenA.testError ∧
    (monitor.checkServiceCycle clientDown svcOpenA 500 3).svc.dockerName = svcOpenA.dockerName ∧
    (monitor.checkServiceCycle clientDown svcOpenA 500 3).updates = [] :=
  claim10_skip_cycle_frame clientDown svcOpenA 500 3 (by decide) (by decide)
